import Mathlib

/-!
Shallow embedding of `src/mmp.py` (Mapa interactivo de faenas mineras de Perú).

Source structure embedded here:
  - `cargar_y_geocodificar_datos` (lines 22-65): loads the geocoded table if
    present, otherwise the raw base table (error when neither exists),
    geocodes the raw table row by row with NaN on any failure, drops rows
    lacking coordinates, and normalizes the designated text columns with the
    sentinel "No disponible".
  - `update_map` (lines 192-203): four sequential truthiness-guarded
    dataframe filters (Región, Mineral principal, Tipo Cliente exact; Nombre
    via pandas `Series.str.contains(q, case=False, na=False)`, whose default
    `regex=True` interprets the query as a regular expression searched
    anywhere in the name).
  - `display_click_data` (lines 256-283): default panel when nothing is
    clicked; otherwise `df[df['Nombre'] == nombre].iloc[0]`, where `.iloc[0]`
    on an empty selection raises IndexError (modelled as `Except.error`).

Machine reals (pandas floats) appear only as present/absent coordinates in
the claims, so latitude and longitude are modelled as `Option ℚ`; `np.nan`
in the Latitud/Longitud columns is `none` (which `dropna` removes).
-/

/-- One row of the mining-facility dataframe after normalization
(`df_minas`): the eight designated text columns of the source table plus the
Latitud/Longitud columns.  Field names transliterate the Spanish column
names `Nombre, Empresa, Región, Mineral principal, Minerales secundarios,
Tipo de yacimiento, Link, Tipo Cliente`. -/
structure FacilityRecord where
  nombre : String
  empresa : String
  region : String
  mineralPrincipal : String
  mineralesSecundarios : String
  tipoYacimiento : String
  link : String
  tipoCliente : String
  latitud : Option ℚ
  longitud : Option ℚ
deriving DecidableEq, Repr

/-- One raw row as read by `pd.read_excel`: every designated text cell is
optional (`none` models a blank/absent cell, which pandas reads as NaN), and
the coordinate columns are optional rationals (`none` models `np.nan`). -/
structure RawRow where
  nombre : Option String
  empresa : Option String
  region : Option String
  mineralPrincipal : Option String
  mineralesSecundarios : Option String
  tipoYacimiento : Option String
  link : Option String
  tipoCliente : Option String
  latitud : Option ℚ
  longitud : Option ℚ
deriving DecidableEq, Repr

/-- The designated text columns of `cols_necesarias` (line 58). -/
inductive Col where
  | nombre
  | empresa
  | region
  | mineralPrincipal
  | mineralesSecundarios
  | tipoYacimiento
  | link
  | tipoCliente
deriving DecidableEq, Repr

/-- Cell of a raw row at a designated column. -/
def getRaw (row : RawRow) : Col → Option String
  | Col.nombre => row.nombre
  | Col.empresa => row.empresa
  | Col.region => row.region
  | Col.mineralPrincipal => row.mineralPrincipal
  | Col.mineralesSecundarios => row.mineralesSecundarios
  | Col.tipoYacimiento => row.tipoYacimiento
  | Col.link => row.link
  | Col.tipoCliente => row.tipoCliente

/-- Field of a normalized record at a designated column. -/
def getRec (r : FacilityRecord) : Col → String
  | Col.nombre => r.nombre
  | Col.empresa => r.empresa
  | Col.region => r.region
  | Col.mineralPrincipal => r.mineralPrincipal
  | Col.mineralesSecundarios => r.mineralesSecundarios
  | Col.tipoYacimiento => r.tipoYacimiento
  | Col.link => r.link
  | Col.tipoCliente => r.tipoCliente

/-- `astype(str)` on one cell: pandas renders a NaN cell as the string
"nan" (line 62). -/
def astype_str : Option String → String
  | none => "nan"
  | some s => s

/-- `Series.replace('nan', 'No disponible')` on one cell: exact whole-value
match, not substring replacement (line 62). -/
def replace_nan (s : String) : String :=
  if s == "nan" then "No disponible" else s

/-- The `for col in cols_necesarias` loop (lines 60-64) at one column of one
row: a present column is cast to string and its "nan" values replaced by the
sentinel; an absent column is synthesized as the sentinel. -/
def normalizeCell (cols : Col → Bool) (row : RawRow) (c : Col) : String :=
  if cols c then replace_nan (astype_str (getRaw row c)) else "No disponible"

/-- The normalization loop applied to a whole row, producing a `df_minas`
record; the coordinate columns are untouched by the loop. -/
def normalizeRow (cols : Col → Bool) (row : RawRow) : FacilityRecord :=
  { nombre := normalizeCell cols row Col.nombre
    empresa := normalizeCell cols row Col.empresa
    region := normalizeCell cols row Col.region
    mineralPrincipal := normalizeCell cols row Col.mineralPrincipal
    mineralesSecundarios := normalizeCell cols row Col.mineralesSecundarios
    tipoYacimiento := normalizeCell cols row Col.tipoYacimiento
    link := normalizeCell cols row Col.link
    tipoCliente := normalizeCell cols row Col.tipoCliente
    latitud := row.latitud
    longitud := row.longitud }

/-- A loaded table: which designated columns the sheet has, and its rows in
stored order. -/
structure RawTable where
  cols : Col → Bool
  rows : List RawRow

/-- `df["Ubicación"]` for one row (line 36):
`df["Nombre"].astype(str) + ", " + df["Región"].astype(str) + ", Perú"`. -/
def ubicacion (row : RawRow) : String :=
  astype_str row.nombre ++ ", " ++ astype_str row.region ++ ", Perú"

/-- The geocoding provider as seen by the loop body (lines 43-49): a call
either raises (`Except.error`), returns no location (`Except.ok none`), or
returns a location with coordinates. -/
def GeocodeProvider : Type := String → Except String (Option (ℚ × ℚ))

/-- The `try/except` around one lookup (lines 43-49): an exception appends
NaN, a `None` location appends NaN, otherwise the coordinates are taken. -/
def lookupCoords (geocode : GeocodeProvider) (loc : String) : Option (ℚ × ℚ) :=
  match geocode loc with
  | Except.error _ => none
  | Except.ok none => none
  | Except.ok (some p) => some p

/-- Assignment of the freshly built Latitud/Longitud columns to a row
(lines 51-52). -/
def conCoordenadas (row : RawRow) (lat lon : Option ℚ) : RawRow :=
  { row with latitud := lat, longitud := lon }

/-- Pointwise zip of three equal-length lists, used to reattach the
`latitudes`/`longitudes` accumulator lists to the rows. -/
def zipWith3 (f : RawRow → Option ℚ → Option ℚ → RawRow) :
    List RawRow → List (Option ℚ) → List (Option ℚ) → List RawRow
  | a :: as, b :: bs, c :: cs => f a b c :: zipWith3 f as bs cs
  | _, _, _ => []

/-- The enrichment loop (lines 36-52): build `df["Ubicación"]`, accumulate a
latitude and a longitude per row (NaN on any failure), and assign both
columns back onto the rows. -/
def geocodificar (geocode : GeocodeProvider) (rows : List RawRow) : List RawRow :=
  let ubic := rows.map ubicacion
  let latitudes := ubic.map (fun l => (lookupCoords geocode l).map Prod.fst)
  let longitudes := ubic.map (fun l => (lookupCoords geocode l).map Prod.snd)
  zipWith3 conCoordenadas rows latitudes longitudes

/-- `df.dropna(subset=['Latitud', 'Longitud'], inplace=True)` (line 56). -/
def dropnaLatLon (rows : List RawRow) : List RawRow :=
  rows.filter (fun row => row.latitud.isSome && row.longitud.isSome)

/-- Lines 56-65: drop rows lacking coordinates, then normalize the
designated text columns into records. -/
def preparar (cols : Col → Bool) (rows : List RawRow) : List FacilityRecord :=
  (dropnaLatLon rows).map (normalizeRow cols)

/-- The message printed when the base file is also missing (line 33); the
f-string placeholder holds `ruta_excel`. -/
def mensajeArchivoFaltante : String :=
  "Error: No se encontró el archivo base en la ruta \x27minas_peru_completo_reordenado.xlsx\x27."

/-- `cargar_y_geocodificar_datos` (lines 22-65).  The two `pd.read_excel`
attempts are modelled by two optional tables: `none` is a
`FileNotFoundError`.  When the geocoded table exists it is used as is; when
only the base table exists it is geocoded first; when neither exists the
function prints the error naming the base path and returns None (modelled as
`Except.error`).  Either successful path then drops coordinate-less rows and
normalizes the designated columns. -/
def cargar_y_geocodificar_datos (geocodificado base : Option RawTable)
    (geocode : GeocodeProvider) : Except String (List FacilityRecord) :=
  match geocodificado with
  | some t => Except.ok (preparar t.cols t.rows)
  | none =>
    match base with
    | none => Except.error mensajeArchivoFaltante
    | some t => Except.ok (preparar t.cols (geocodificar geocode t.rows))

/-!  The filter callback `update_map` (lines 192-203). -/

/-- A regex token of the pattern subset modelled here: a literal character
or the metacharacter `.` (any character but newline). -/
inductive PatTok where
  | lit (c : Char)
  | dot
deriving DecidableEq, Repr

/-- Python `re` metacharacters other than `.`; patterns using these are
outside the modelled subset. -/
def isMeta (c : Char) : Bool :=
  ['*', '+', '?', '[', ']', '(', ')', '|', '^', '$', '\\', '\x7b', '\x7d'].contains c

/-- Parse one pattern character: `.` is the any-character token, the other
metacharacters are unsupported, everything else matches literally. -/
def parseTok (c : Char) : Option PatTok :=
  if c = '.' then some PatTok.dot
  else if isMeta c then none
  else some (PatTok.lit c)

/-- Parse a whole pattern, character by character. -/
def parsePat : List Char → Option (List PatTok)
  | [] => some []
  | c :: cs =>
    match parseTok c, parsePat cs with
    | some t, some ts => some (t :: ts)
    | _, _ => none

/-- Case-insensitive match of one token against one character
(`re.IGNORECASE`, ASCII folding): a literal compares lowercased, `.` matches
anything but a newline. -/
def tokMatch : PatTok → Char → Bool
  | PatTok.lit c, ch => c.toLower == ch.toLower
  | PatTok.dot, ch => ch != '\n'

/-- Match a token list against a prefix of the text. -/
def matchHere : List PatTok → List Char → Bool
  | [], _ => true
  | _ :: _, [] => false
  | t :: ts, c :: cs => tokMatch t c && matchHere ts cs

/-- `re.search` semantics: the token list matches at some position. -/
def reSearch (ts : List PatTok) : List Char → Bool
  | [] => matchHere ts []
  | c :: cs => matchHere ts (c :: cs) || reSearch ts cs

/-- `Series.str.contains(q, case=False, na=False)` on one name (line 203):
pandas compiles `q` as a regular expression (`regex=True` by default) with
`re.IGNORECASE` and searches it anywhere in the string.  Faithful on the
pattern subset of literal characters and `.`, which is the only region any
theorem evaluates this matcher on.  Outside that subset this total function
is NOT the program: a pattern with other metacharacters is either a valid
regex whose matching is not modelled (e.g. "x*" retains every name) or an
invalid one on which `re.compile` raises `re.error` (e.g. "(").
`compilarNombre` classifies a query into those regions, and
`update_map_exc` carries the raising path; the `false` fallback here is
never relied on. -/
def str_contains_ci (s q : String) : Bool :=
  match parsePat q.data with
  | some ts => reSearch ts s.data
  | none => false

/-- One `if <value>: dff = dff[<predicate>]` step of `update_map`: a `None`
or empty-string value is falsy and leaves the frame unchanged, otherwise the
frame is filtered by the predicate at that value. -/
def aplicar_filtro (v : Option String) (p : String → FacilityRecord → Bool)
    (dff : List FacilityRecord) : List FacilityRecord :=
  match v with
  | none => dff
  | some s => if s.isEmpty then dff else dff.filter (p s)

/-- `update_map` (lines 192-203) restricted to its data core: the four
sequential filters over `df_minas`; the figure built from `dff` afterwards
is presentation and out of scope. -/
def update_map (df_minas : List FacilityRecord)
    (region_seleccionada mineral_seleccionado cliente_seleccionado nombre_buscado : Option String) :
    List FacilityRecord :=
  let dff := df_minas
  let dff := aplicar_filtro region_seleccionada (fun s r => r.region == s) dff
  let dff := aplicar_filtro mineral_seleccionado (fun s r => r.mineralPrincipal == s) dff
  let dff := aplicar_filtro cliente_seleccionado (fun s r => r.tipoCliente == s) dff
  let dff := aplicar_filtro nombre_buscado (fun s r => str_contains_ci r.nombre s) dff
  dff

/-!  The click callback `display_click_data` (lines 256-283). -/

/-- What the callback returns to the info panel: the default "no selection"
children, or the detail children for one record (with whether the Link is
rendered as an active hyperlink). -/
inductive Panel where
  | defaultPanel
  | detail (mina_info : FacilityRecord) (linkActivo : Bool)
deriving DecidableEq, Repr

/-- `.iloc[0]`: first row of a selection; raises IndexError on an empty
selection (modelled as `Except.error`). -/
def iloc0 (rows : List FacilityRecord) : Except String FacilityRecord :=
  match rows with
  | [] => Except.error "IndexError: single positional indexer is out-of-bounds"
  | r :: _ => Except.ok r

/-- `display_click_data` (lines 256-283): `clickData is None` renders the
default panel; otherwise the clicked name selects
`df_minas[df_minas['Nombre'] == nombre_mina].iloc[0]` and the detail panel is
built, with an active link exactly when the Link field is not the sentinel
and starts with "http". -/
def display_click_data (df_minas : List FacilityRecord) (clickNombre : Option String) :
    Except String Panel :=
  match clickNombre with
  | none => Except.ok Panel.defaultPanel
  | some nombre_mina =>
    match iloc0 (df_minas.filter (fun r => r.nombre == nombre_mina)) with
    | Except.error e => Except.error e
    | Except.ok mina_info =>
      Except.ok (Panel.detail mina_info
        (mina_info.link != "No disponible" && mina_info.link.startsWith "http"))

/-!  Helper notions used by the theorems below. -/

/-- Python truthiness of a filter value: `None` and the empty string are
falsy, any other string is truthy. -/
def esTruthy : Option String → Bool
  | none => false
  | some s => !s.isEmpty

/-- The constraint one filter value imposes on one record: a falsy value
imposes none, a truthy value imposes its predicate. -/
def optMatch : Option String → (String → Bool) → Bool
  | none, _ => true
  | some s, p => if s.isEmpty then true else p s

/-- The combined predicate the four sequential filters of `update_map`
amount to (written in the association produced by collapsing the filters
outermost first). -/
def critPred (a b c d : Option String) (r : FacilityRecord) : Bool :=
  optMatch d (fun s => str_contains_ci r.nombre s) &&
  (optMatch c (fun s => r.tipoCliente == s) &&
  (optMatch b (fun s => r.mineralPrincipal == s) &&
  optMatch a (fun s => r.region == s)))

/-- Boolean list-prefix test. -/
def isPrefixOfB : List Char → List Char → Bool
  | [], _ => true
  | _ :: _, [] => false
  | a :: as, b :: bs => a == b && isPrefixOfB as bs

/-- Boolean contiguous-sublist test: the needle is a prefix of some suffix
of the haystack. -/
def containsSub (needle : List Char) : List Char → Bool
  | [] => isPrefixOfB needle []
  | c :: cs => isPrefixOfB needle (c :: cs) || containsSub needle cs

/-- Plain (case-sensitive) substring test on strings. -/
def containsStr (s q : String) : Bool :=
  containsSub q.data s.data

/-- Spec-side definition, following the spec's words for the name filter:
`name` contains the query as a case-insensitive substring — plain substring
containment, not anchored.  Stated independently of the source's
regex-based `str_contains_ci` so the two can be compared. -/
def specContainsCI (s q : String) : Bool :=
  containsSub (q.data.map Char.toLower) (s.data.map Char.toLower)

/-!  Concrete sample data for witnesses and counterexamples. -/

/-- Sample record with the given name, region, primary mineral and client
type; the remaining text fields hold the sentinel and the coordinates are
resolved. -/
def mkRecord (nombre region mineral cliente : String) : FacilityRecord :=
  { nombre := nombre
    empresa := "No disponible"
    region := region
    mineralPrincipal := mineral
    mineralesSecundarios := "No disponible"
    tipoYacimiento := "No disponible"
    link := "No disponible"
    tipoCliente := cliente
    latitud := some (-14)
    longitud := some (-70) }

/-- Sample record whose name contains "cu" case-insensitively and whose
region is Cusco. -/
def rCusco : FacilityRecord := mkRecord "Minera Cusco" "Cusco" "Cobre" "Privado"

/-- Sample record whose name is "abc" (which does not contain "." as a
substring). -/
def rAbc : FacilityRecord := mkRecord "abc" "Puno" "Estaño" "Privado"

/-- Sample record named "San Rafael". -/
def rSanRafael : FacilityRecord := mkRecord "San Rafael" "Puno" "Estaño" "Privado"

/-- Sample record named "san rafael" (lower case). -/
def rsanrafael : FacilityRecord := mkRecord "san rafael" "Puno" "Estaño" "Estatal"

/-- Sample column layout: every designated column is present in the sheet
except `Tipo Cliente`. -/
def colsEjemplo : Col → Bool :=
  fun c => c != Col.tipoCliente

/-- Sample raw row whose `Link` cell is blank (NaN) and whose resolvable
coordinates are present. -/
def filaEjemplo : RawRow :=
  { nombre := some "Quellaveco"
    empresa := some "Anglo American"
    region := some "Moquegua"
    mineralPrincipal := some "Cobre"
    mineralesSecundarios := none
    tipoYacimiento := some "Pórfido"
    link := none
    tipoCliente := none
    latitud := some (-17)
    longitud := some (-70) }

/-- Sample raw row whose `Minerales secundarios` cell holds the literal
three-letter text "nan". -/
def filaNan : RawRow :=
  { filaEjemplo with mineralesSecundarios := some "nan", link := some "https://ejemplo.pe" }

/-!  The `re.compile` step of `str.contains`, with its error path.

Pandas compiles the query before filtering, and an ill-formed pattern makes
`re.compile` raise `re.error` out of the callback, so the callback returns
no filtered frame at all.  The model judges compilation on two sound
regions: a pattern of literal characters and `.` compiles to its token
list; a pattern whose characters are only literals, `.` and parentheses is
a pure bracket expression, and for those Python accepts exactly the
balanced ones (parentheses cannot be escaped or character-classed without
`\` or `[`), so an unbalanced one — such as "(" — raises `re.error`.
Every other pattern (other metacharacters, or balanced groups) is declared
outside the model rather than given a fabricated behavior. -/

/-- Outcome of compiling the name query, as far as the model judges it:
a token list for the modelled subset, a certain `re.error`, or a pattern
whose behavior the model does not judge. -/
inductive CompileResult where
  | ok (ts : List PatTok)
  | reError
  | fueraDeModelo
deriving DecidableEq, Repr

/-- Balance check for parentheses, tracking the open-group depth. -/
def parensBalanceados : List Char → Nat → Bool
  | [], d => d == 0
  | ch :: cs, d =>
    if ch = '(' then parensBalanceados cs (d + 1)
    else if ch = ')' then
      match d with
      | 0 => false
      | e + 1 => parensBalanceados cs e
    else parensBalanceados cs d

/-- Classify the name query's compilation (see the section comment above
for the soundness of each region). -/
def compilarNombre (q : String) : CompileResult :=
  if q.data.all (fun ch => (parseTok ch).isSome) then
    match parsePat q.data with
    | some ts => CompileResult.ok ts
    | none => CompileResult.fueraDeModelo
  else if q.data.all (fun ch => (parseTok ch).isSome || ch == '(' || ch == ')') then
    if parensBalanceados q.data 0 then CompileResult.fueraDeModelo
    else CompileResult.reError
  else CompileResult.fueraDeModelo

/-- What the filter callback produces once the regex error path is
represented: a filtered frame, an escaped `re.error`, or a query the model
does not judge. -/
inductive ResultadoFiltro where
  | ok (dff : List FacilityRecord)
  | reError
  | fueraDeModelo
deriving DecidableEq, Repr

/-- `update_map` (lines 192-203) with the compile step of `str.contains`
made explicit: a falsy name query never reaches pandas, a truthy one is
compiled before filtering, and an ill-formed pattern raises `re.error` out
of the callback, so no filtered frame is returned.  On the compiling
subset this agrees with `update_map`; queries the model does not judge are
marked as such instead of being given a value. -/
def update_map_exc (df_minas : List FacilityRecord)
    (region_seleccionada mineral_seleccionado cliente_seleccionado nombre_buscado : Option String) :
    ResultadoFiltro :=
  match nombre_buscado with
  | none =>
    ResultadoFiltro.ok (update_map df_minas region_seleccionada mineral_seleccionado
      cliente_seleccionado none)
  | some q =>
    if q.isEmpty then
      ResultadoFiltro.ok (update_map df_minas region_seleccionada mineral_seleccionado
        cliente_seleccionado (some q))
    else
      match compilarNombre q with
      | CompileResult.ok _ =>
        ResultadoFiltro.ok (update_map df_minas region_seleccionada mineral_seleccionado
          cliente_seleccionado (some q))
      | CompileResult.reError => ResultadoFiltro.reError
      | CompileResult.fueraDeModelo => ResultadoFiltro.fueraDeModelo

/-!  Structural lemmas about the filter pipeline. -/

/-- One guarded filter step is a `List.filter` by the corresponding
`optMatch` predicate. -/
theorem aplicar_filtro_eq_filter (v : Option String) (p : String → FacilityRecord → Bool)
    (dff : List FacilityRecord) :
    aplicar_filtro v p dff = dff.filter (fun r => optMatch v (fun s => p s r)) := by
  cases v with
  | none => simp [aplicar_filtro, optMatch]
  | some s =>
    cases hs : s.isEmpty with
    | true => simp [aplicar_filtro, optMatch, hs]
    | false => simp [aplicar_filtro, optMatch, hs]

/-- The four sequential filters of `update_map` amount to one
`List.filter` by the combined predicate. -/
theorem update_map_eq_filter (df : List FacilityRecord) (a b c d : Option String) :
    update_map df a b c d = df.filter (critPred a b c d) := by
  simp only [update_map, aplicar_filtro_eq_filter, List.filter_filter]
  rfl

/-- A truthy filter value whose `optMatch` holds imposes its predicate at
the carried string. -/
theorem optMatch_of_truthy (v : Option String) (p : String → Bool)
    (hv : esTruthy v = true) (hm : optMatch v p = true) : p (v.getD "") = true := by
  cases v with
  | none => simp [esTruthy] at hv
  | some s =>
    simp only [esTruthy, Bool.not_eq_true'] at hv
    simp only [optMatch, hv, Bool.false_eq_true, if_false] at hm
    exact hm

/-!  Lemmas relating the regex search to plain substring containment. -/

/-- A pattern of literal tokens matches a prefix of the text exactly when
the lowercased pattern characters are a prefix of the lowercased text. -/
theorem matchHere_lit (qs : List Char) (ss : List Char) :
    matchHere (qs.map PatTok.lit) ss = isPrefixOfB (qs.map Char.toLower) (ss.map Char.toLower) := by
  induction qs generalizing ss with
  | nil => cases ss <;> rfl
  | cons a as ih =>
    cases ss with
    | nil => rfl
    | cons b bs => simp [matchHere, isPrefixOfB, tokMatch, ih]

/-- Searching a pattern of literal tokens anywhere in the text is the
case-insensitive contiguous-sublist test. -/
theorem reSearch_lit (qs : List Char) (ss : List Char) :
    reSearch (qs.map PatTok.lit) ss = containsSub (qs.map Char.toLower) (ss.map Char.toLower) := by
  induction ss with
  | nil => simp [reSearch, containsSub, matchHere_lit]
  | cons c cs ih => simp [reSearch, containsSub, matchHere_lit, ih]

/-- A pattern all of whose characters parse as literal tokens parses to the
list of those literal tokens. -/
theorem parsePat_lit (qs : List Char) (hq : ∀ ch ∈ qs, parseTok ch = some (PatTok.lit ch)) :
    parsePat qs = some (qs.map PatTok.lit) := by
  induction qs with
  | nil => rfl
  | cons a as ih =>
    simp [parsePat, hq a (by simp), ih (fun ch hch => hq ch (by simp [hch]))]

/-- On queries without regex metacharacters, the source's name predicate is
exactly the spec's case-insensitive substring containment. -/
theorem str_contains_ci_eq_spec (s q : String)
    (hq : ∀ ch ∈ q.data, parseTok ch = some (PatTok.lit ch)) :
    str_contains_ci s q = specContainsCI s q := by
  simp [str_contains_ci, parsePat_lit q.data hq, specContainsCI, reSearch_lit]

/-- The empty needle is contained in every haystack. -/
theorem containsSub_nil (hay : List Char) : containsSub [] hay = true := by
  cases hay <;> simp [containsSub, isPrefixOfB]

/-!  Lemmas about normalization and the load pipeline. -/

/-- Reading a normalized row at a column is the cell normalization. -/
theorem getRec_normalizeRow (cols : Col → Bool) (row : RawRow) (c : Col) :
    getRec (normalizeRow cols row) c = normalizeCell cols row c := by
  cases c <;> rfl

/-- The enrichment loop attaches to each row exactly the coordinates its
own location lookup produced. -/
theorem geocodificar_eq_map (g : GeocodeProvider) (rows : List RawRow) :
    geocodificar g rows = rows.map (fun row => conCoordenadas row
      ((lookupCoords g (ubicacion row)).map Prod.fst)
      ((lookupCoords g (ubicacion row)).map Prod.snd)) := by
  induction rows with
  | nil => rfl
  | cons r rs ih =>
    simp only [geocodificar, List.map_cons, zipWith3] at ih ⊢
    rw [ih]

/-- A member of a filtered frame comes from the input and satisfies every
truthy criterion's predicate. -/
theorem mem_update_map_satisface
    (df : List FacilityRecord) (a b c d : Option String) (r : FacilityRecord)
    (h : r ∈ update_map df a b c d) :
    r ∈ df ∧
    (esTruthy a = true → r.region = a.getD "") ∧
    (esTruthy b = true → r.mineralPrincipal = b.getD "") ∧
    (esTruthy c = true → r.tipoCliente = c.getD "") ∧
    (esTruthy d = true → str_contains_ci r.nombre (d.getD "") = true) := by
  rw [update_map_eq_filter] at h
  obtain ⟨hm, hp⟩ := List.mem_filter.mp h
  simp only [critPred, Bool.and_eq_true] at hp
  obtain ⟨hd, hc, hb, ha⟩ := hp
  refine ⟨hm, ?_, ?_, ?_, ?_⟩
  · intro ht
    exact eq_of_beq (optMatch_of_truthy a _ ht ha)
  · intro ht
    exact eq_of_beq (optMatch_of_truthy b _ ht hb)
  · intro ht
    exact eq_of_beq (optMatch_of_truthy c _ ht hc)
  · intro ht
    exact optMatch_of_truthy d _ ht hd

/-- A filtered frame the error-aware callback does return is the one the
total filter computes. -/
theorem update_map_exc_ok (df : List FacilityRecord) (a b c d : Option String)
    (out : List FacilityRecord) (h : update_map_exc df a b c d = ResultadoFiltro.ok out) :
    out = update_map df a b c d := by
  cases d with
  | none =>
    simp only [update_map_exc, ResultadoFiltro.ok.injEq] at h
    exact h.symm
  | some q =>
    simp only [update_map_exc] at h
    cases hq : q.isEmpty with
    | true =>
      rw [hq] at h
      simp only [if_true, ResultadoFiltro.ok.injEq] at h
      exact h.symm
    | false =>
      rw [hq] at h
      simp only [Bool.false_eq_true, if_false] at h
      cases hcomp : compilarNombre q with
      | ok ts =>
        rw [hcomp] at h
        simp only [ResultadoFiltro.ok.injEq] at h
        exact h.symm
      | reError =>
        rw [hcomp] at h
        exact absurd h (by simp)
      | fueraDeModelo =>
        rw [hcomp] at h
        exact absurd h (by simp)

/-!  Claim theorems. -/

/-- C1 counterexample: the claim promises that for EVERY criteria the
filter returns a subset of the input, but at the name query "(" pandas
raises `re.error` while compiling the pattern inside `str.contains`, so
the callback returns no subset at all: the error-aware embedding yields
the raising outcome, not a filtered frame. -/
theorem c1_subset_claim_counterexample :
    update_map_exc [rAbc] none none none (some "(") = ResultadoFiltro.reError := by
  rfl

/-- C1 amended: for every record set and every filter criteria whose name
query — when set and non-empty — compiles (within the modelled literal/dot
pattern subset), the filter does return a frame, and that frame is a
subset of the input in which every record satisfies all of the truthy
criteria, the truthy fields combining by logical AND and falsy fields
imposing no constraint; an ill-formed name query instead raises `re.error`
and yields no subset. -/
theorem c1_compiled_query_subset_and_all_predicates
    (df : List FacilityRecord) (a b c d : Option String)
    (out : List FacilityRecord) (r : FacilityRecord)
    (h : update_map_exc df a b c d = ResultadoFiltro.ok out) (hr : r ∈ out) :
    r ∈ df ∧
    (esTruthy a = true → r.region = a.getD "") ∧
    (esTruthy b = true → r.mineralPrincipal = b.getD "") ∧
    (esTruthy c = true → r.tipoCliente = c.getD "") ∧
    (esTruthy d = true → str_contains_ci r.nombre (d.getD "") = true) :=
  mem_update_map_satisface df a b c d r (update_map_exc_ok df a b c d out h ▸ hr)

/-- Witness for C1 amended at the spec's scenario criteria
`(region: "Cusco", nameQuery: "cu")`. -/
theorem c1_compiled_query_subset_and_all_predicates_witness :
    rCusco ∈ [rCusco] ∧
    (esTruthy (some "Cusco") = true → rCusco.region = (some "Cusco").getD "") ∧
    (esTruthy (none : Option String) = true → rCusco.mineralPrincipal = (none : Option String).getD "") ∧
    (esTruthy (none : Option String) = true → rCusco.tipoCliente = (none : Option String).getD "") ∧
    (esTruthy (some "cu") = true → str_contains_ci rCusco.nombre ((some "cu").getD "") = true) :=
  c1_compiled_query_subset_and_all_predicates [rCusco] (some "Cusco") none none (some "cu")
    [rCusco] rCusco (by decide) (by decide)

/-- C8: applying the filter with entirely empty criteria (all four values
`None`) returns the record set unchanged. -/
theorem c8_empty_criteria_identity (df : List FacilityRecord) :
    update_map df none none none none = df := rfl

/-- C9: the filter is idempotent — applying `update_map` twice with the
same criteria equals applying it once. -/
theorem c9_update_map_idempotent (df : List FacilityRecord) (a b c d : Option String) :
    update_map (update_map df a b c d) a b c d = update_map df a b c d := by
  simp only [update_map_eq_filter, List.filter_filter, Bool.and_self]

/-- C3 counterexample: with the name query "." the filter retains the
record named "abc" even though "abc" does not contain "." as a substring —
the code interprets the query as a regular expression, so the claim's
"exactly those records whose name contains q as a case-insensitive
substring" fails as stated. -/
theorem c3_substring_claim_counterexample :
    update_map [rAbc] none none none (some ".") = [rAbc] ∧
    specContainsCI rAbc.nombre "." = false := by
  constructor
  · rfl
  · rfl

/-- C3 amended: the name filter interprets the query as a case-insensitive
regular expression searched anywhere in the name (pandas
`str.contains` with its default `regex=True`); for queries without regex
metacharacters this coincides with plain case-insensitive substring
containment: such a query retains exactly the records whose name contains
it as a case-insensitive substring. -/
theorem c3_literal_query_is_ci_substring (q : String)
    (hq : ∀ ch ∈ q.data, parseTok ch = some (PatTok.lit ch))
    (df : List FacilityRecord) (r : FacilityRecord) :
    r ∈ update_map df none none none (some q) ↔
      r ∈ df ∧ specContainsCI r.nombre q = true := by
  cases he : q.isEmpty with
  | true =>
    have hdf : update_map df none none none (some q) = df := by
      simp [update_map, aplicar_filtro, he]
    have hqe : q = "" := (String.isEmpty_iff q).mp he
    subst hqe
    simp [hdf, specContainsCI, containsSub_nil]
  | false =>
    have hdf : update_map df none none none (some q) =
        df.filter (fun r => str_contains_ci r.nombre q) := by
      simp [update_map, aplicar_filtro, he]
    rw [hdf, List.mem_filter, str_contains_ci_eq_spec _ _ hq]

/-- Witness for C3 amended at the spec's example: the query "SAN" retains
both a record named "San Rafael" and one named "san rafael". -/
theorem c3_literal_query_is_ci_substring_witness :
    (rSanRafael ∈ update_map [rSanRafael, rsanrafael] none none none (some "SAN")) ∧
    (rsanrafael ∈ update_map [rSanRafael, rsanrafael] none none none (some "SAN")) :=
  ⟨(c3_literal_query_is_ci_substring "SAN" (by decide) [rSanRafael, rsanrafael] rSanRafael).mpr
      ⟨by simp, by decide⟩,
   (c3_literal_query_is_ci_substring "SAN" (by decide) [rSanRafael, rsanrafael] rsanrafael).mpr
      ⟨by simp, by decide⟩⟩

/-- C2: the claim says a lookup on a name present in no record returns
NotFound, recovered locally into the default panel, never an exception.
The code instead selects `df_minas[df_minas['Nombre'] == nombre_mina]`,
which is empty, and `.iloc[0]` on the empty selection raises IndexError:
evaluated at the spec's own scenario input "Nonexistent Mine" over a store
holding only "San Rafael", the callback raises instead of rendering the
default panel. -/
theorem c2_lookup_miss_raises_index_error :
    display_click_data [rSanRafael] (some "Nonexistent Mine") =
      Except.error "IndexError: single positional indexer is out-of-bounds" := rfl

/-- C7: when records share a name, the lookup on that name returns the
first matching record in stored order (the record after any prefix of
non-matching records), without failing — regardless of how many further
matches follow. -/
theorem c7_duplicate_names_first_in_order
    (pre post : List FacilityRecord) (r : FacilityRecord) (name : String)
    (hpre : ∀ x ∈ pre, (x.nombre == name) = false) (hr : (r.nombre == name) = true) :
    display_click_data (pre ++ r :: post) (some name) =
      Except.ok (Panel.detail r (r.link != "No disponible" && r.link.startsWith "http")) := by
  have h1 : pre.filter (fun x => x.nombre == name) = [] :=
    List.filter_eq_nil_iff.mpr (by intro x hx; simp [hpre x hx])
  simp [display_click_data, List.filter_append, h1, List.filter_cons, hr, iloc0]

/-- Witness for C7: a store with two records named "San Rafael" (differing
in region) yields the first of them. -/
theorem c7_duplicate_names_first_in_order_witness :
    display_click_data ([] ++ rSanRafael :: [mkRecord "San Rafael" "Cusco" "Cobre" "Privado"])
        (some "San Rafael") =
      Except.ok (Panel.detail rSanRafael
        (rSanRafael.link != "No disponible" && rSanRafael.link.startsWith "http")) :=
  c7_duplicate_names_first_in_order [] [mkRecord "San Rafael" "Cusco" "Cobre" "Privado"]
    rSanRafael "San Rafael" (by intro x hx; simp at hx) (by decide)

/-- C4: after load, a designated text cell that was blank in the source
(pandas NaN) or whose column is absent from the sheet entirely surfaces as
the sentinel "No disponible" — it is a total string, never null or lost to
an error. -/
theorem c4_sentinel_normalization (cols : Col → Bool) (row : RawRow) (c : Col)
    (h : cols c = false ∨ getRaw row c = none) :
    getRec (normalizeRow cols row) c = "No disponible" := by
  rw [getRec_normalizeRow]
  rcases h with h | h
  · simp [normalizeCell, h]
  · cases hc : cols c with
    | false => simp [normalizeCell, hc]
    | true => simp [normalizeCell, hc, h, astype_str, replace_nan]

/-- Witness for C4: a row whose Link cell is blank, in a sheet whose
`Tipo Cliente` column is absent, surfaces the sentinel in both fields. -/
theorem c4_sentinel_normalization_witness :
    getRec (normalizeRow colsEjemplo filaEjemplo) Col.link = "No disponible" ∧
    getRec (normalizeRow colsEjemplo filaEjemplo) Col.tipoCliente = "No disponible" :=
  ⟨c4_sentinel_normalization colsEjemplo filaEjemplo Col.link (Or.inr rfl),
   c4_sentinel_normalization colsEjemplo filaEjemplo Col.tipoCliente (Or.inl (by decide))⟩

/-- C10: a designated cell whose string representation is exactly "nan" —
including a cell genuinely holding the three-letter text "nan" — loads as
the sentinel "No disponible", and is therefore indistinguishable from a
blank cell after normalization. -/
theorem c10_literal_nan_indistinguishable (cols : Col → Bool) (row blankRow : RawRow) (c : Col)
    (h : getRaw row c = some "nan") (hb : getRaw blankRow c = none) :
    getRec (normalizeRow cols row) c = "No disponible" ∧
    getRec (normalizeRow cols row) c = getRec (normalizeRow cols blankRow) c := by
  have h1 : getRec (normalizeRow cols row) c = "No disponible" := by
    rw [getRec_normalizeRow]
    cases hc : cols c with
    | false => simp [normalizeCell, hc]
    | true => simp [normalizeCell, hc, h, astype_str, replace_nan]
  have h2 : getRec (normalizeRow cols blankRow) c = "No disponible" := by
    rw [getRec_normalizeRow]
    cases hc : cols c with
    | false => simp [normalizeCell, hc]
    | true => simp [normalizeCell, hc, hb, astype_str, replace_nan]
  exact ⟨h1, h1.trans h2.symm⟩

/-- Witness for C10: a row whose `Minerales secundarios` cell holds the
literal text "nan" loads as the sentinel there, agreeing with a row whose
cell is blank. -/
theorem c10_literal_nan_indistinguishable_witness :
    getRec (normalizeRow colsEjemplo filaNan) Col.mineralesSecundarios = "No disponible" ∧
    getRec (normalizeRow colsEjemplo filaNan) Col.mineralesSecundarios =
      getRec (normalizeRow colsEjemplo filaEjemplo) Col.mineralesSecundarios :=
  c10_literal_nan_indistinguishable colsEjemplo filaNan filaEjemplo Col.mineralesSecundarios
    rfl rfl

/-- C5: when neither the geocoded file nor the raw base file exists, the
loader yields no record set (it fails with the missing-base-file error,
fatal for the caller) and the message produced names the expected base file
path. -/
theorem c5_missing_base_file (geocode : GeocodeProvider) :
    cargar_y_geocodificar_datos none none geocode = Except.error mensajeArchivoFaltante ∧
    containsStr mensajeArchivoFaltante "minas_peru_completo_reordenado.xlsx" = true :=
  ⟨rfl, by decide⟩

/-- C6: loading from the raw file returns exactly the rows whose geocoding
lookup resolved — a lookup failure of any kind (provider exception, or no
match) is recorded as absent coordinates rather than aborting enrichment,
and such rows are then dropped, while rows with resolved coordinates are
retained (carrying those coordinates) and normalized. -/
theorem c6_geocode_failure_drops_record (g : GeocodeProvider) (t : RawTable) :
    cargar_y_geocodificar_datos none (some t) g =
      Except.ok ((t.rows.filter (fun row => (lookupCoords g (ubicacion row)).isSome)).map
        (fun row => normalizeRow t.cols (conCoordenadas row
          ((lookupCoords g (ubicacion row)).map Prod.fst)
          ((lookupCoords g (ubicacion row)).map Prod.snd)))) := by
  simp only [cargar_y_geocodificar_datos, preparar, dropnaLatLon, geocodificar_eq_map,
    List.filter_map, List.map_map]
  congr 2
  apply List.filter_congr
  intro row _
  simp [conCoordenadas, Option.isSome_map']
